import Mathlib

/-!
# Verification of `keystore2/test_utils/lib.rs`

A shallow embedding of the test-utility layer of the keystore2 test suite:
the `TempDir` scoped temporary directory and the `SecLevel` security-level
handle.  External collaborators (the filesystem, the random source, the
binder service registry) are modelled as explicit environment records; a
Rust panic (from `panic!`, `expect`, `unwrap` or a failed `assert_eq!`) is
modelled by the `PResult.panicked` constructor carrying the panic message.
Filesystem paths are modelled as lists of separator-free segments;
`PathBuf::push` of a separator-free relative segment appends one segment.
-/

deriving instance DecidableEq for Except

/-- Outcome of a Rust computation that may panic: either a normal return or
a panic carrying the panic message delivered to the caller / test harness. -/
inductive PResult (α : Type) where
  | ok : α → PResult α
  | panicked : String → PResult α
deriving DecidableEq

/-- `std::io::ErrorKind`, keeping the one variant the code inspects and a
tagged catch-all for every other kind. -/
inductive IoErrorKind where
  | alreadyExists : IoErrorKind
  | otherKind : Nat → IoErrorKind
deriving DecidableEq

/-- A `std::io::Error`, identified by its kind (with the tag of `otherKind`
distinguishing distinct non-collision errors, so that "returned unchanged"
is meaningful). -/
structure IoError where
  kind : IoErrorKind
deriving DecidableEq

/-- `SecurityLevel` from the keymint AIDL: the two tiers the code handles
plus the remaining declared tiers, which the code treats as unexpected. -/
inductive SecurityLevel where
  | SOFTWARE : SecurityLevel
  | TRUSTED_ENVIRONMENT : SecurityLevel
  | STRONGBOX : SecurityLevel
  | KEYSTORE : SecurityLevel
deriving DecidableEq

/-- `ErrorCode::HARDWARE_TYPE_UNAVAILABLE` from the keymint AIDL (value -68). -/
def HARDWARE_TYPE_UNAVAILABLE : Int := -68

/-- A binder `Status` failure returned by a service call, identified by its
service-specific error code. -/
structure BinderStatus where
  serviceSpecificError : Int
deriving DecidableEq

/-- Modelled from the spec: the test error type of the `key_generations`
module (declared `pub mod key_generations;` but not under src/).  The spec
requires only that a keymint `ErrorCode` failure (such as the
hardware-unavailable condition) be distinguishable from other failures;
`Km` carries a keymint error code, `Rc` a keystore response code. -/
inductive KsError where
  | Km : Int → KsError
  | Rc : Int → KsError
deriving DecidableEq

/-- Rendering of a `KsError` used in panic messages of a failed `assert_eq!`. -/
def ksErrorRepr : KsError → String
  | KsError.Km c => "Km(" ++ toString c ++ ")"
  | KsError.Rc c => "Rc(" ++ toString c ++ ")"

/-- Rendering of a `BinderStatus` used in `expect` panic messages. -/
def statusRepr (s : BinderStatus) : String :=
  "Status(" ++ toString s.serviceSpecificError ++ ")"

/-- Modelled from the spec: `key_generations::map_ks_error` (module not
under src/).  It maps a binder-level failure into the test error type,
keeping the "hardware tier unavailable" condition distinguishable: keymint
error codes are negative, keystore response codes are positive. -/
def map_ks_error {α : Type} : Except BinderStatus α → Except KsError α
  | Except.ok a => Except.ok a
  | Except.error s =>
      if s.serviceSpecificError < 0 then Except.error (KsError.Km s.serviceSpecificError)
      else Except.error (KsError.Rc s.serviceSpecificError)

/-- An IPC handle to the top-level `IKeystoreService`. -/
structure KsServiceHandle where
  id : Nat
deriving DecidableEq

/-- An IPC handle to an `IKeystoreSecurityLevel` sub-service. -/
structure SLBinder where
  id : Nat
deriving DecidableEq

/-- An IPC handle to an `IKeyMintDevice`. -/
structure KMDevice where
  id : Nat
deriving DecidableEq

/-- The binder world as seen by this layer: the top-level service lookup,
the per-tier sub-handle lookup, the registry declaration check, interface
resolution and the interface-version query.  All calls are synchronous, so
one record of functions captures a run. -/
structure BinderEnv where
  keystoreService : Except String KsServiceHandle
  getSecurityLevel : SecurityLevel → Except BinderStatus SLBinder
  isDeclared : String → Except String Bool
  getInterface : String → Except String KMDevice
  getInterfaceVersion : KMDevice → Except String Int

/-- `get_keystore_service`: resolves the top-level service and unwraps,
panicking if the lookup fails. -/
def get_keystore_service (env : BinderEnv) : PResult KsServiceHandle :=
  match env.keystoreService with
  | Except.ok ks => PResult.ok ks
  | Except.error m => PResult.panicked ("called Result::unwrap() on an Err value: " ++ m)

/-- `SecLevel`: the top-level service handle, the security-level sub-handle
and the security-level tag. -/
structure SecLevel where
  keystore2 : KsServiceHandle
  binder : SLBinder
  level : SecurityLevel
deriving DecidableEq

/-- `SecLevel::tee`: resolves the TEE sub-handle, `expect`ing success; the
`expect` panic message names the failure the lookup produced. -/
def SecLevel.tee (env : BinderEnv) : PResult SecLevel :=
  let level := SecurityLevel.TRUSTED_ENVIRONMENT
  match get_keystore_service env with
  | PResult.panicked m => PResult.panicked m
  | PResult.ok keystore2 =>
    match env.getSecurityLevel level with
    | Except.ok b => PResult.ok { keystore2 := keystore2, binder := b, level := level }
    | Except.error s =>
        PResult.panicked ("TEE security level should always be present: " ++ statusRepr s)

/-- `SecLevel::strongbox`: resolves the StrongBox sub-handle; a mapped
`Km(HARDWARE_TYPE_UNAVAILABLE)` failure yields `none`, any other failure
fails the `assert_eq!` and panics with a message naming that failure. -/
def SecLevel.strongbox (env : BinderEnv) : PResult (Option SecLevel) :=
  let level := SecurityLevel.STRONGBOX
  match get_keystore_service env with
  | PResult.panicked m => PResult.panicked m
  | PResult.ok keystore2 =>
    match map_ks_error (env.getSecurityLevel level) with
    | Except.ok b => PResult.ok (some { keystore2 := keystore2, binder := b, level := level })
    | Except.error e =>
        if e = KsError.Km HARDWARE_TYPE_UNAVAILABLE then PResult.ok none
        else
          PResult.panicked ("assertion failed: " ++ ksErrorRepr e ++ " != " ++
            ksErrorRepr (KsError.Km HARDWARE_TYPE_UNAVAILABLE))

/-- The tier-to-instance-name match duplicated inside `is_keymint` and
`get_keymint_version`; `none` is the `panic!("unexpected level ...")` arm. -/
def keymintInstance : SecurityLevel → Option String
  | SecurityLevel.TRUSTED_ENVIRONMENT => some "default"
  | SecurityLevel.STRONGBOX => some "strongbox"
  | _ => none

/-- The `format!` of the registry name from the instance name, shared by
`is_keymint` and `get_keymint_version`. -/
def keymintName (inst : String) : String :=
  "android.hardware.security.keymint.IKeyMintDevice/" ++ inst

/-- `SecLevel::is_keymint`: derives the instance name from the tier and
checks whether the KeyMint interface is declared under it, `expect`ing the
registry check to succeed. -/
def SecLevel.is_keymint (s : SecLevel) (env : BinderEnv) : PResult Bool :=
  match keymintInstance s.level with
  | none => PResult.panicked "unexpected level"
  | some inst =>
    match env.isDeclared (keymintName inst) with
    | Except.ok b => PResult.ok b
    | Except.error _ => PResult.panicked "Could not check for declared keymint interface"

/-- `SecLevel::is_keymaster`: the boolean negation of `is_keymint`. -/
def SecLevel.is_keymaster (s : SecLevel) (env : BinderEnv) : PResult Bool :=
  match s.is_keymint env with
  | PResult.ok b => PResult.ok (!b)
  | PResult.panicked m => PResult.panicked m

/-- `SecLevel::get_keymint_version`: derives the instance name from the
tier; if the KeyMint interface is declared under it, resolves it and
queries its interface version (unwrapping both steps), otherwise returns 0.
The second component records the names of the interfaces whose version was
queried during the call. -/
def SecLevel.get_keymint_version (s : SecLevel) (env : BinderEnv) :
    PResult Int × List String :=
  match keymintInstance s.level with
  | none => (PResult.panicked "unexpected level", [])
  | some inst =>
    let name := keymintName inst
    match env.isDeclared name with
    | Except.error _ => (PResult.panicked "Could not check for declared keymint interface", [])
    | Except.ok false => (PResult.ok 0, [])
    | Except.ok true =>
      match env.getInterface name with
      | Except.error m =>
          (PResult.panicked ("called Result::unwrap() on an Err value: " ++ m), [])
      | Except.ok km =>
        match env.getInterfaceVersion km with
        | Except.ok v => (PResult.ok v, [name])
        | Except.error m =>
            (PResult.panicked ("called Result::unwrap() on an Err value: " ++ m), [name])

/-- A filesystem path as a list of separator-free segments relative to the
filesystem root; the temp root is itself such a list. -/
abbrev RPath : Type := List String

/-- The filesystem world and random source as seen by `TempDir`:
`tempRoot` is `std::env::temp_dir()`, `rand i` the value of the `i`-th call
to `rand::random::<u16>()` (reduced mod 2^16), `create_dir i p` the outcome
of a `create_dir(p)` issued at iteration `i`, and `remove_dir_all p` the
outcome of recursively removing `p`. -/
structure FsEnv where
  tempRoot : RPath
  rand : Nat → Nat
  create_dir : Nat → RPath → Except IoError Unit
  remove_dir_all : RPath → Except IoError Unit

/-- Rust's `format!("{:05}", n)` for `n : u16`: the decimal representation
zero-padded to width 5.  Every `u16` is below 100000, so the padded string
is exactly the five base-10 digits of `n`, which is how it is written here. -/
def zeroPad5 (n : Nat) : String :=
  String.mk [Nat.digitChar (n / 10000 % 10), Nat.digitChar (n / 1000 % 10),
    Nat.digitChar (n / 100 % 10), Nat.digitChar (n / 10 % 10), Nat.digitChar (n % 10)]

/-- The candidate path generated at iteration `i` of the `TempDir::new`
loop: the temp root extended by `<prefix>_<5-digit random number>`. -/
def candidatePath (env : FsEnv) (pfx : String) (i : Nat) : RPath :=
  env.tempRoot ++ [pfx ++ "_" ++ zeroPad5 (env.rand i % 65536)]

/-- `TempDir`: the allocated absolute path and the cleanup flag. -/
structure TempDir where
  path : RPath
  do_drop : Bool
deriving DecidableEq

/-- The `loop` inside `TempDir::new`, starting at iteration `i` with `fuel`
iterations allowed: generate a candidate name, attempt `create_dir`, retry
on `AlreadyExists`, return any other error, break with the path on success.
`none` models non-termination (fuel exhausted). -/
def TempDir.newLoop (env : FsEnv) (pfx : String) :
    Nat → Nat → Option (Except IoError RPath)
  | 0, _ => none
  | fuel + 1, i =>
    let tmp := candidatePath env pfx i
    match env.create_dir i tmp with
    | Except.error e =>
      match e.kind with
      | IoErrorKind.alreadyExists => TempDir.newLoop env pfx fuel (i + 1)
      | IoErrorKind.otherKind _ => some (Except.error e)
    | Except.ok _ => some (Except.ok tmp)

/-- `TempDir::new`: run the allocation loop from iteration 0 and wrap a
successfully created path with the cleanup flag set. -/
def TempDir.new (env : FsEnv) (pfx : String) (fuel : Nat) :
    Option (Except IoError TempDir) :=
  match TempDir.newLoop env pfx fuel 0 with
  | none => none
  | some (Except.error e) => some (Except.error e)
  | some (Except.ok tmp) => some (Except.ok { path := tmp, do_drop := true })

/-- `PathBuilder`: a transient owned wrapper around a path value. -/
structure PathBuilder where
  path : RPath
deriving DecidableEq

/-- `TempDir::build`: a builder seeded with a clone of the current path.
Pure: takes no filesystem environment. -/
def TempDir.build (td : TempDir) : PathBuilder :=
  { path := td.path }

/-- `PathBuilder::push`: appends a segment, consuming and returning the
builder.  Pure: takes no filesystem environment. -/
def PathBuilder.push (b : PathBuilder) (segment : String) : PathBuilder :=
  { path := b.path ++ [segment] }

/-- `Deref for PathBuilder`: reading the builder back as a path. -/
def PathBuilder.deref (b : PathBuilder) : RPath :=
  b.path

/-- Rendering of a path used in the diagnostic notice of `do_not_drop`. -/
def pathRepr (p : RPath) : String :=
  String.intercalate "/" p

/-- `TempDir::do_not_drop`: clears the cleanup flag and emits the
diagnostic notice naming the path on stdout and on the log (the second
component lists the two emitted messages, in order). -/
def TempDir.do_not_drop (td : TempDir) : TempDir × List String :=
  ({ td with do_drop := false },
   ["Disabled automatic cleanup for: " ++ pathRepr td.path,
    "Disabled automatic cleanup for: " ++ pathRepr td.path])

/-- `Drop for TempDir`: if the cleanup flag is set, recursively removes the
directory, `expect`ing success.  The second component records the paths on
which `remove_dir_all` was invoked. -/
def TempDir.drop (env : FsEnv) (td : TempDir) : PResult Unit × List RPath :=
  if td.do_drop then
    match env.remove_dir_all td.path with
    | Except.ok _ => (PResult.ok (), [td.path])
    | Except.error _ => (PResult.panicked "Cannot delete temporary dir.", [td.path])
  else (PResult.ok (), [])

/-! ## Concrete environments used to exercise the definitions -/

/-- A binder world where every tier is present and backed by KeyMint
version 3. -/
def envPresent : BinderEnv where
  keystoreService := Except.ok ⟨0⟩
  getSecurityLevel := fun _ => Except.ok ⟨1⟩
  isDeclared := fun _ => Except.ok true
  getInterface := fun _ => Except.ok ⟨2⟩
  getInterfaceVersion := fun _ => Except.ok 3

/-- A binder world where the StrongBox tier fails its lookup with the
hardware-unavailable service-specific code. -/
def envAbsent : BinderEnv where
  keystoreService := Except.ok ⟨0⟩
  getSecurityLevel := fun l =>
    if l = SecurityLevel.STRONGBOX then Except.error ⟨-68⟩ else Except.ok ⟨1⟩
  isDeclared := fun _ => Except.ok true
  getInterface := fun _ => Except.ok ⟨2⟩
  getInterfaceVersion := fun _ => Except.ok 3

/-- A binder world where every sub-handle lookup fails with a
keystore response code. -/
def envTeeDown : BinderEnv where
  keystoreService := Except.ok ⟨0⟩
  getSecurityLevel := fun _ => Except.error ⟨4⟩
  isDeclared := fun _ => Except.ok true
  getInterface := fun _ => Except.ok ⟨2⟩
  getInterfaceVersion := fun _ => Except.ok 3

/-- A binder world where both tiers are present but backed by a legacy
(Keymaster) implementation: the KeyMint interface is not declared. -/
def envLegacy : BinderEnv where
  keystoreService := Except.ok ⟨0⟩
  getSecurityLevel := fun _ => Except.ok ⟨1⟩
  isDeclared := fun _ => Except.ok false
  getInterface := fun _ => Except.ok ⟨2⟩
  getInterfaceVersion := fun _ => Except.ok 3

/-- A resolved TEE handle in `envPresent`. -/
def sTee : SecLevel :=
  { keystore2 := ⟨0⟩, binder := ⟨1⟩, level := SecurityLevel.TRUSTED_ENVIRONMENT }

/-- A filesystem world whose first directory creation collides and whose
second succeeds. -/
def fsW : FsEnv where
  tempRoot := ["tmp"]
  rand := fun i => 7 + i
  create_dir := fun i _ =>
    if i = 0 then Except.error ⟨IoErrorKind.alreadyExists⟩ else Except.ok ()
  remove_dir_all := fun _ => Except.ok ()

/-- A filesystem world whose first directory creation fails with a
non-collision error, and where recursive removal fails. -/
def fsErr : FsEnv where
  tempRoot := ["tmp"]
  rand := fun i => 7 + i
  create_dir := fun _ _ => Except.error ⟨IoErrorKind.otherKind 13⟩
  remove_dir_all := fun _ => Except.error ⟨IoErrorKind.otherKind 13⟩

/-! ## Theorems -/

/-- Any `SecLevel` returned by `tee` carries the TEE level tag. -/
theorem tee_ok_level (env : BinderEnv) (s : SecLevel)
    (h : SecLevel.tee env = PResult.ok s) :
    s.level = SecurityLevel.TRUSTED_ENVIRONMENT := by
  cases hks : env.keystoreService with
  | error m => simp [SecLevel.tee, get_keystore_service, hks] at h
  | ok ks =>
    cases hsl : env.getSecurityLevel SecurityLevel.TRUSTED_ENVIRONMENT with
    | error st => simp [SecLevel.tee, get_keystore_service, hks, hsl] at h
    | ok b =>
      simp only [SecLevel.tee, get_keystore_service, hks, hsl, PResult.ok.injEq] at h
      rw [← h]

/-- Any `SecLevel` returned by `strongbox` carries the StrongBox level tag. -/
theorem strongbox_ok_level (env : BinderEnv) (s : SecLevel)
    (h : SecLevel.strongbox env = PResult.ok (some s)) :
    s.level = SecurityLevel.STRONGBOX := by
  cases hks : env.keystoreService with
  | error m => simp [SecLevel.strongbox, get_keystore_service, hks] at h
  | ok ks =>
    cases hsl : map_ks_error (env.getSecurityLevel SecurityLevel.STRONGBOX) with
    | ok b =>
      simp only [SecLevel.strongbox, get_keystore_service, hks, hsl,
        PResult.ok.injEq, Option.some.injEq] at h
      rw [← h]
    | error e =>
      by_cases he : e = KsError.Km HARDWARE_TYPE_UNAVAILABLE <;>
        simp [SecLevel.strongbox, get_keystore_service, hks, hsl, he] at h

/-- C1: `strongbox` yields the absent result exactly when the StrongBox
sub-handle lookup fails with the hardware-unavailable error code; a
successful lookup yields a present handle tagged STRONGBOX; any failure of
another kind is surfaced to the caller (panic message naming that failure)
and is never coerced into the absent result. -/
theorem C1_strongbox_absent_iff_unavailable (env : BinderEnv) (ks : KsServiceHandle)
    (hks : env.keystoreService = Except.ok ks) :
    (SecLevel.strongbox env = PResult.ok none ↔
      map_ks_error (env.getSecurityLevel SecurityLevel.STRONGBOX) =
        (Except.error (KsError.Km HARDWARE_TYPE_UNAVAILABLE) : Except KsError SLBinder)) ∧
    (∀ b : SLBinder, env.getSecurityLevel SecurityLevel.STRONGBOX = Except.ok b →
      SecLevel.strongbox env =
        PResult.ok (some { keystore2 := ks, binder := b, level := SecurityLevel.STRONGBOX })) ∧
    (∀ e : KsError,
      map_ks_error (env.getSecurityLevel SecurityLevel.STRONGBOX) =
        (Except.error e : Except KsError SLBinder) →
      e ≠ KsError.Km HARDWARE_TYPE_UNAVAILABLE →
      SecLevel.strongbox env =
        PResult.panicked ("assertion failed: " ++ ksErrorRepr e ++ " != " ++
          ksErrorRepr (KsError.Km HARDWARE_TYPE_UNAVAILABLE))) := by
  refine ⟨?_, ?_, ?_⟩
  · cases hraw : env.getSecurityLevel SecurityLevel.STRONGBOX with
    | ok b =>
      simp [SecLevel.strongbox, get_keystore_service, hks, hraw, map_ks_error]
    | error st =>
      by_cases hneg : st.serviceSpecificError < 0 <;>
        simp [SecLevel.strongbox, get_keystore_service, hks, hraw, map_ks_error, hneg]
  · intro b hb
    simp [SecLevel.strongbox, get_keystore_service, hks, hb, map_ks_error]
  · intro e hmap hne
    cases hraw : env.getSecurityLevel SecurityLevel.STRONGBOX with
    | ok b => rw [hraw] at hmap; simp [map_ks_error] at hmap
    | error st =>
      rw [hraw] at hmap
      simp only [map_ks_error] at hmap
      by_cases hneg : st.serviceSpecificError < 0 <;> simp [hneg] at hmap <;>
        rw [← hmap] at hne ⊢ <;>
        simp [SecLevel.strongbox, get_keystore_service, hks, hraw, map_ks_error, hneg, hne]

/-- C1 witness: in `envAbsent` the StrongBox lookup fails with the
hardware-unavailable code and `strongbox` yields the absent result. -/
theorem C1_witness :
    envAbsent.keystoreService = Except.ok ⟨0⟩ ∧
    SecLevel.strongbox envAbsent = PResult.ok none :=
  ⟨rfl, (C1_strongbox_absent_iff_unavailable envAbsent ⟨0⟩ rfl).1.mpr (by decide)⟩


/-- C2: when the TEE sub-handle lookup fails, `tee` reports the failure to
the caller: it never returns a handle, and the reported failure names the
failure the service lookup produced. -/
theorem C2_tee_failure_reported (env : BinderEnv) (ks : KsServiceHandle) (st : BinderStatus)
    (hks : env.keystoreService = Except.ok ks)
    (hfail : env.getSecurityLevel SecurityLevel.TRUSTED_ENVIRONMENT = Except.error st) :
    SecLevel.tee env =
      PResult.panicked ("TEE security level should always be present: " ++ statusRepr st) ∧
    ∀ s : SecLevel, SecLevel.tee env ≠ PResult.ok s := by
  constructor
  · simp [SecLevel.tee, get_keystore_service, hks, hfail]
  · intro s
    simp [SecLevel.tee, get_keystore_service, hks, hfail]

/-- C2 witness: in `envTeeDown` the TEE lookup fails with `Status(4)` and
`tee` reports exactly that failure. -/
theorem C2_witness :
    envTeeDown.keystoreService = Except.ok ⟨0⟩ ∧
    envTeeDown.getSecurityLevel SecurityLevel.TRUSTED_ENVIRONMENT = Except.error ⟨4⟩ ∧
    (SecLevel.tee envTeeDown =
        PResult.panicked ("TEE security level should always be present: " ++ statusRepr ⟨4⟩) ∧
      ∀ s : SecLevel, SecLevel.tee envTeeDown ≠ PResult.ok s) :=
  ⟨rfl, rfl, C2_tee_failure_reported envTeeDown ⟨0⟩ ⟨4⟩ rfl rfl⟩

/-- No panic message produced by an `unwrap` can be the `unexpected level`
panic message: the prefixed message is strictly longer. -/
theorem unwrap_msg_ne (m : String) :
    "called Result::unwrap() on an Err value: " ++ m ≠ "unexpected level" := by
  intro hc
  have hlen := congrArg String.length hc
  rw [String.length_append] at hlen
  have h1 : ("called Result::unwrap() on an Err value: ").length = 41 := rfl
  have h2 : ("unexpected level").length = 16 := rfl
  rw [h1, h2] at hlen
  omega

/-- C3: on a handle whose tier maps to an instance name, the version query
returns the KeyMint interface version when the interface is declared under
the tier-derived name, returns exactly 0 when it is not declared, and every
interface whose version is queried is the tier-derived KeyMint interface
(so no legacy interface's version is ever queried). -/
theorem C3_keymint_version (env : BinderEnv) (s : SecLevel) (inst : String)
    (hinst : keymintInstance s.level = some inst) :
    (env.isDeclared (keymintName inst) = Except.ok false →
      s.get_keymint_version env = (PResult.ok 0, [])) ∧
    (∀ (km : KMDevice) (v : Int), env.isDeclared (keymintName inst) = Except.ok true →
      env.getInterface (keymintName inst) = Except.ok km →
      env.getInterfaceVersion km = Except.ok v →
      s.get_keymint_version env = (PResult.ok v, [keymintName inst])) ∧
    (∀ q ∈ (s.get_keymint_version env).2, q = keymintName inst) := by
  refine ⟨?_, ?_, ?_⟩
  · intro hd
    simp [SecLevel.get_keymint_version, hinst, hd]
  · intro km v hd hi hv
    simp [SecLevel.get_keymint_version, hinst, hd, hi, hv]
  · intro q hq
    cases hd : env.isDeclared (keymintName inst) with
    | error m => simp [SecLevel.get_keymint_version, hinst, hd] at hq
    | ok b =>
      cases b with
      | false => simp [SecLevel.get_keymint_version, hinst, hd] at hq
      | true =>
        cases hi : env.getInterface (keymintName inst) with
        | error m => simp [SecLevel.get_keymint_version, hinst, hd, hi] at hq
        | ok km =>
          cases hv : env.getInterfaceVersion km with
          | ok v =>
            simp [SecLevel.get_keymint_version, hinst, hd, hi, hv] at hq
            exact hq
          | error m =>
            simp [SecLevel.get_keymint_version, hinst, hd, hi, hv] at hq
            exact hq

/-- C3 witness: in `envPresent` the TEE handle reports KeyMint version 3,
obtained from the tier-derived interface name. -/
theorem C3_witness :
    keymintInstance sTee.level = some "default" ∧
    sTee.get_keymint_version envPresent = (PResult.ok 3, [keymintName "default"]) :=
  ⟨rfl, (C3_keymint_version envPresent sTee "default" rfl).2.1 ⟨2⟩ 3 rfl rfl rfl⟩

/-- C4: on a handle whose tier maps to an instance name and whose registry
declaration check succeeds, `is_keymint` and `is_keymaster` return
complementary booleans. -/
theorem C4_backend_kind_complementary (env : BinderEnv) (s : SecLevel)
    (inst : String) (b : Bool)
    (hinst : keymintInstance s.level = some inst)
    (hd : env.isDeclared (keymintName inst) = Except.ok b) :
    s.is_keymint env = PResult.ok b ∧ s.is_keymaster env = PResult.ok (!b) := by
  have h1 : s.is_keymint env = PResult.ok b := by
    simp [SecLevel.is_keymint, hinst, hd]
  exact ⟨h1, by simp [SecLevel.is_keymaster, h1]⟩

/-- C4 witness: in `envPresent` the TEE handle is KeyMint and not
Keymaster. -/
theorem C4_witness :
    keymintInstance sTee.level = some "default" ∧
    envPresent.isDeclared (keymintName "default") = Except.ok true ∧
    (sTee.is_keymint envPresent = PResult.ok true ∧
      sTee.is_keymaster envPresent = PResult.ok false) :=
  ⟨rfl, rfl, C4_backend_kind_complementary envPresent sTee "default" true rfl rfl⟩

/-- C10: every `SecLevel` produced by the public constructors carries the
TEE tag (from `tee`) or the StrongBox tag (from `strongbox`); for such a
value the tier-to-instance-name match succeeds, so neither `is_keymint` nor
`get_keymint_version` can reach the unexpected-level panic arm. -/
theorem C10_constructed_levels_no_panic (env : BinderEnv) (s : SecLevel)
    (h : SecLevel.tee env = PResult.ok s ∨ SecLevel.strongbox env = PResult.ok (some s)) :
    (SecLevel.tee env = PResult.ok s → s.level = SecurityLevel.TRUSTED_ENVIRONMENT) ∧
    (SecLevel.strongbox env = PResult.ok (some s) → s.level = SecurityLevel.STRONGBOX) ∧
    keymintInstance s.level ≠ none ∧
    s.is_keymint env ≠ PResult.panicked "unexpected level" ∧
    (s.get_keymint_version env).1 ≠ PResult.panicked "unexpected level" := by
  have hinst : ∃ inst, keymintInstance s.level = some inst := by
    cases h with
    | inl h => exact ⟨"default", by rw [tee_ok_level env s h]; rfl⟩
    | inr h => exact ⟨"strongbox", by rw [strongbox_ok_level env s h]; rfl⟩
  obtain ⟨inst, hi⟩ := hinst
  refine ⟨fun h' => tee_ok_level env s h', fun h' => strongbox_ok_level env s h',
    by simp [hi], ?_, ?_⟩
  · cases hd : env.isDeclared (keymintName inst) with
    | ok b => simp [SecLevel.is_keymint, hi, hd]
    | error m =>
      simp only [SecLevel.is_keymint, hi, hd, ne_eq, PResult.panicked.injEq]
      decide
  · cases hd : env.isDeclared (keymintName inst) with
    | error m =>
      simp only [SecLevel.get_keymint_version, hi, hd, ne_eq, PResult.panicked.injEq]
      decide
    | ok b =>
      cases b with
      | false => simp [SecLevel.get_keymint_version, hi, hd]
      | true =>
        cases hgi : env.getInterface (keymintName inst) with
        | error m =>
          simp only [SecLevel.get_keymint_version, hi, hd, hgi, ne_eq,
            PResult.panicked.injEq]
          exact unwrap_msg_ne m
        | ok km =>
          cases hv : env.getInterfaceVersion km with
          | ok v => simp [SecLevel.get_keymint_version, hi, hd, hgi, hv]
          | error m =>
            simp only [SecLevel.get_keymint_version, hi, hd, hgi, hv, ne_eq,
              PResult.panicked.injEq]
            exact unwrap_msg_ne m

/-- C10 witness: the TEE handle constructed in `envPresent` carries the TEE
tag and neither backend query can reach the unexpected-level panic arm. -/
theorem C10_witness :
    (SecLevel.tee envPresent = PResult.ok sTee ∨
      SecLevel.strongbox envPresent = PResult.ok (some sTee)) ∧
    ((SecLevel.tee envPresent = PResult.ok sTee →
        sTee.level = SecurityLevel.TRUSTED_ENVIRONMENT) ∧
      (SecLevel.strongbox envPresent = PResult.ok (some sTee) →
        sTee.level = SecurityLevel.STRONGBOX) ∧
      keymintInstance sTee.level ≠ none ∧
      sTee.is_keymint envPresent ≠ PResult.panicked "unexpected level" ∧
      (sTee.get_keymint_version envPresent).1 ≠ PResult.panicked "unexpected level") :=
  ⟨Or.inl rfl, C10_constructed_levels_no_panic envPresent sTee (Or.inl rfl)⟩

/-- The padded random suffix always has exactly five characters. -/
theorem zeroPad5_length (n : Nat) : (zeroPad5 n).length = 5 := rfl

/-- Every character of the padded random suffix is a decimal digit. -/
theorem zeroPad5_digits (n : Nat) : ∀ c ∈ (zeroPad5 n).data, c.isDigit = true := by
  have hbase : ∀ k, k < 10 → (Nat.digitChar k).isDigit = true := by decide
  have hmod : ∀ m : Nat, (Nat.digitChar (m % 10)).isDigit = true := fun m =>
    hbase (m % 10) (Nat.mod_lt m (by norm_num))
  intro c hc
  simp only [zeroPad5, String.data, List.mem_cons, List.not_mem_nil, or_false] at hc
  rcases hc with rfl | rfl | rfl | rfl | rfl <;> exact hmod _

/-- A successful run of the allocation loop breaks at some iteration `j`
with the candidate path of that iteration, after `create_dir` actually
succeeded on it. -/
theorem newLoop_ok_spec (env : FsEnv) (pfx : String) :
    ∀ (fuel i : Nat) (tmp : RPath),
      TempDir.newLoop env pfx fuel i = some (Except.ok tmp) →
      ∃ j, i ≤ j ∧ tmp = candidatePath env pfx j ∧
        env.create_dir j tmp = Except.ok () := by
  intro fuel
  induction fuel with
  | zero => intro i tmp h; simp [TempDir.newLoop] at h
  | succ n ih =>
    intro i tmp h
    simp only [TempDir.newLoop] at h
    cases hc : env.create_dir i (candidatePath env pfx i) with
    | ok u =>
      simp only [hc] at h
      simp at h
      refine ⟨i, Nat.le_refl i, h.symm, ?_⟩
      rw [← h, hc]
    | error e =>
      obtain ⟨ek⟩ := e
      cases ek with
      | alreadyExists =>
        simp only [hc] at h
        obtain ⟨j, hij, hcand, hcr⟩ := ih (i + 1) tmp h
        exact ⟨j, by omega, hcand, hcr⟩
      | otherKind t =>
        simp only [hc] at h
        simp at h

/-- An error returned by the allocation loop is a `create_dir` error of a
non-collision kind, returned unchanged from the iteration it occurred at. -/
theorem newLoop_error_spec (env : FsEnv) (pfx : String) :
    ∀ (fuel i : Nat) (e : IoError),
      TempDir.newLoop env pfx fuel i = some (Except.error e) →
      e.kind ≠ IoErrorKind.alreadyExists ∧
      ∃ j, i ≤ j ∧ env.create_dir j (candidatePath env pfx j) = Except.error e := by
  intro fuel
  induction fuel with
  | zero => intro i e h; simp [TempDir.newLoop] at h
  | succ n ih =>
    intro i e h
    simp only [TempDir.newLoop] at h
    cases hc : env.create_dir i (candidatePath env pfx i) with
    | ok u =>
      simp only [hc] at h
      simp at h
    | error e' =>
      obtain ⟨ek⟩ := e'
      cases ek with
      | alreadyExists =>
        simp only [hc] at h
        obtain ⟨hne, j, hij, hcr⟩ := ih (i + 1) e h
        exact ⟨hne, j, by omega, hcr⟩
      | otherKind t =>
        simp only [hc] at h
        simp at h
        refine ⟨?_, i, Nat.le_refl i, ?_⟩
        · rw [← h]
          intro hcontra
          exact IoErrorKind.noConfusion hcontra
        · rw [hc, h]

/-- A collision at iteration `i` makes the loop continue at iteration
`i + 1`, whose candidate uses the fresh random value `rand (i + 1)`. -/
theorem newLoop_collision_retries (env : FsEnv) (pfx : String) (fuel i : Nat) (e : IoError)
    (hc : env.create_dir i (candidatePath env pfx i) = Except.error e)
    (hk : e.kind = IoErrorKind.alreadyExists) :
    TempDir.newLoop env pfx (fuel + 1) i = TempDir.newLoop env pfx fuel (i + 1) := by
  simp [TempDir.newLoop, hc, hk]

/-- C5: a successful allocation with a separator-free prefix yields a path
under the temp root whose final segment is the prefix, an underscore, and
exactly five decimal digits: the random number of some iteration
zero-padded to five figures. -/
theorem C5_alloc_path_shape (env : FsEnv) (pfx : String) (fuel : Nat) (td : TempDir)
    (_hsep : '/' ∉ pfx.data)
    (h : TempDir.new env pfx fuel = some (Except.ok td)) :
    ∃ ds : String, td.path = env.tempRoot ++ [pfx ++ "_" ++ ds] ∧
      ds.length = 5 ∧ (∀ c ∈ ds.data, c.isDigit = true) ∧
      ∃ i, ds = zeroPad5 (env.rand i % 65536) := by
  cases hl : TempDir.newLoop env pfx fuel 0 with
  | none => simp [TempDir.new, hl] at h
  | some r =>
    cases r with
    | error e => simp [TempDir.new, hl] at h
    | ok tmp =>
      simp only [TempDir.new, hl, Option.some.injEq, Except.ok.injEq] at h
      obtain ⟨j, _, hcand, _⟩ := newLoop_ok_spec env pfx fuel 0 tmp hl
      refine ⟨zeroPad5 (env.rand j % 65536), ?_, zeroPad5_length _, zeroPad5_digits _, j, rfl⟩
      rw [← h]
      exact hcand

/-- C5 witness: in `fsW` the allocation succeeds at the second attempt and
the resulting final segment is `t_00008`. -/
theorem C5_witness :
    ('/' ∉ "t".data) ∧
    (∃ ds : String,
      (⟨["tmp", "t_00008"], true⟩ : TempDir).path = fsW.tempRoot ++ ["t" ++ "_" ++ ds] ∧
      ds.length = 5 ∧ (∀ c ∈ ds.data, c.isDigit = true) ∧
      ∃ i, ds = zeroPad5 (fsW.rand i % 65536)) :=
  ⟨by decide,
    C5_alloc_path_shape fsW "t" 3 ⟨["tmp", "t_00008"], true⟩ (by decide) (by decide)⟩

/-- C6: a terminating allocation never returns a collision error to the
caller; any non-collision error is returned unchanged from the `create_dir`
call that produced it; success means a directory was actually created; and
a collision makes the loop retry with the next iteration's fresh random
suffix. -/
theorem C6_collision_retry_other_propagated (env : FsEnv) (pfx : String) (fuel : Nat)
    (r : Except IoError TempDir) (h : TempDir.new env pfx fuel = some r) :
    (∀ e : IoError, r = Except.error e → e.kind ≠ IoErrorKind.alreadyExists ∧
      ∃ j, env.create_dir j (candidatePath env pfx j) = Except.error e) ∧
    (∀ td : TempDir, r = Except.ok td → ∃ j, td.path = candidatePath env pfx j ∧
      env.create_dir j td.path = Except.ok ()) ∧
    (∀ (fuel' i : Nat) (e : IoError),
      env.create_dir i (candidatePath env pfx i) = Except.error e →
      e.kind = IoErrorKind.alreadyExists →
      TempDir.newLoop env pfx (fuel' + 1) i = TempDir.newLoop env pfx fuel' (i + 1)) := by
  refine ⟨?_, ?_, fun fuel' i e hc hk => newLoop_collision_retries env pfx fuel' i e hc hk⟩
  · intro e hr
    subst hr
    cases hl : TempDir.newLoop env pfx fuel 0 with
    | none => simp [TempDir.new, hl] at h
    | some r' =>
      cases r' with
      | ok tmp => simp [TempDir.new, hl] at h
      | error e' =>
        simp only [TempDir.new, hl, Option.some.injEq, Except.error.injEq] at h
        subst h
        obtain ⟨hne, j, _, hcr⟩ := newLoop_error_spec env pfx fuel 0 e' hl
        exact ⟨hne, j, hcr⟩
  · intro td hr
    subst hr
    cases hl : TempDir.newLoop env pfx fuel 0 with
    | none => simp [TempDir.new, hl] at h
    | some r' =>
      cases r' with
      | error e' => simp [TempDir.new, hl] at h
      | ok tmp =>
        simp only [TempDir.new, hl, Option.some.injEq, Except.ok.injEq] at h
        obtain ⟨j, _, hcand, hcr⟩ := newLoop_ok_spec env pfx fuel 0 tmp hl
        rw [← h]
        exact ⟨j, hcand, hcr⟩

/-- C6 witness: in `fsErr` the first attempt fails with a non-collision
error, which the allocation returns unchanged. -/
theorem C6_witness :
    TempDir.new fsErr "t" 1 = some (Except.error ⟨IoErrorKind.otherKind 13⟩) ∧
    ((⟨IoErrorKind.otherKind 13⟩ : IoError).kind ≠ IoErrorKind.alreadyExists ∧
      ∃ j, fsErr.create_dir j (candidatePath fsErr "t" j) =
        Except.error ⟨IoErrorKind.otherKind 13⟩) :=
  ⟨by decide,
    (C6_collision_retry_other_propagated fsErr "t" 1 (Except.error ⟨IoErrorKind.otherKind 13⟩)
      (by decide)).1 ⟨IoErrorKind.otherKind 13⟩ rfl⟩

/-- C7: with the cleanup flag set, scope exit invokes the recursive removal
on the directory; a removal failure panics (is never swallowed), a
successful removal completes the drop. -/
theorem C7_drop_removes_or_panics (env : FsEnv) (td : TempDir) (h : td.do_drop = true) :
    (TempDir.drop env td).2 = [td.path] ∧
    (env.remove_dir_all td.path = Except.ok () → (TempDir.drop env td).1 = PResult.ok ()) ∧
    (∀ e : IoError, env.remove_dir_all td.path = Except.error e →
      (TempDir.drop env td).1 = PResult.panicked "Cannot delete temporary dir.") := by
  refine ⟨?_, ?_, ?_⟩
  · cases hr : env.remove_dir_all td.path <;> simp [TempDir.drop, h, hr]
  · intro hr; simp [TempDir.drop, h, hr]
  · intro e hr; simp [TempDir.drop, h, hr]

/-- C7 witness: in `fsErr` removal fails and the drop of a cleanup-enabled
directory panics after invoking the removal on its path. -/
theorem C7_witness :
    ((⟨["tmp", "x"], true⟩ : TempDir).do_drop = true) ∧
    ((TempDir.drop fsErr ⟨["tmp", "x"], true⟩).2 = [(⟨["tmp", "x"], true⟩ : TempDir).path] ∧
      (fsErr.remove_dir_all (⟨["tmp", "x"], true⟩ : TempDir).path = Except.ok () →
        (TempDir.drop fsErr ⟨["tmp", "x"], true⟩).1 = PResult.ok ()) ∧
      (∀ e : IoError,
        fsErr.remove_dir_all (⟨["tmp", "x"], true⟩ : TempDir).path = Except.error e →
        (TempDir.drop fsErr ⟨["tmp", "x"], true⟩).1 =
          PResult.panicked "Cannot delete temporary dir.")) :=
  ⟨rfl, C7_drop_removes_or_panics fsErr ⟨["tmp", "x"], true⟩ rfl⟩

/-- C8: the builder seeded by `build` and extended by two `push` calls
reads back as the directory's path joined with the two segments; `build`,
`push` and the read-back are pure functions of the path (they take no
filesystem environment, so they perform no filesystem operation). -/
theorem C8_builder_extends_path (td : TempDir) :
    ((td.build.push "a").push "b").deref = td.path ++ ["a"] ++ ["b"] := rfl

/-- C9: `do_not_drop` clears the cleanup flag, leaves the stored path
unchanged and emits the diagnostic notices naming the path; dropping the
resulting value invokes no removal (so the directory survives scope exit)
and completes normally. -/
theorem C9_do_not_drop_frame (env : FsEnv) (td : TempDir) :
    td.do_not_drop.1.do_drop = false ∧
    td.do_not_drop.1.path = td.path ∧
    td.do_not_drop.2 = ["Disabled automatic cleanup for: " ++ pathRepr td.path,
      "Disabled automatic cleanup for: " ++ pathRepr td.path] ∧
    TempDir.drop env td.do_not_drop.1 = (PResult.ok (), []) := by
  refine ⟨rfl, rfl, rfl, ?_⟩
  simp [TempDir.drop, TempDir.do_not_drop]
